import Mathlib

/-!
Verification development for the `cockpit-gst-manager` daemon backend.

This file gives a shallow embedding, in Lean, of the parts of the Python
backend that the checked properties speak about:

* `src/backend/instances.py`  — the instance supervisor (`InstanceManager`):
  the `Instance` record, the transient/fatal stderr classifier, and the
  state-changing operations `start_instance`, `stop_instance`,
  `delete_instance`, the reaper `_monitor_process` / `_handle_error`.
* `src/backend/auto_instance.py` — `AutoInstanceConfig`, the
  `PipelineBuilder`, and `AutoInstanceManager.create_or_update`.
* `src/backend/history.py` — `HistoryManager.save_instance` and
  `HistoryManager.export_instance`, over an explicit file-system model that
  records the primitive file operations a call performs.
* `src/backend/api.py` — the `SetAutoInstanceConfig` D-Bus method.

Machine integers are modelled as `Nat`/`Int` (Python integers are unbounded),
Python floats appearing in the configuration as `ℚ` (every checked value is a
small dyadic rational, on which binary floating point is exact), and fallible
Python code returns `Except`.  Strings are handled at the level of their
character lists so that all definitions evaluate inside the kernel.
-/

namespace GstMgr

/-! ### Character/string helpers (Python string primitives used by the code) -/

/-- ASCII lower-casing of one character, as `str.lower()` acts on the ASCII
range (all classifier patterns are ASCII). -/
def lowerChar (c : Char) : Char :=
  if 'A' ≤ c ∧ c ≤ 'Z' then Char.ofNat (c.toNat + 32) else c

/-- `s.lower()`. -/
def lowerStr (s : String) : String := ⟨s.data.map lowerChar⟩

/-- Does the list start with the given chunk? -/
def seqStartsWith {α : Type} [DecidableEq α] : List α → List α → Bool
  | [], _ => true
  | _ :: _, [] => false
  | a :: as, b :: bs => a = b && seqStartsWith as bs

/-- Does the list contain the given chunk as a contiguous subsequence? -/
def seqContains {α : Type} [DecidableEq α] (needle : List α) : List α → Bool
  | [] => needle.isEmpty
  | b :: bs => seqStartsWith needle (b :: bs) || seqContains needle bs

/-- Python `needle in hay` on strings. -/
def strContains (hay needle : String) : Bool := seqContains needle.data hay.data

/-- Python `hay.startswith(pre)`. -/
def strStartsWith (hay pre : String) : Bool := seqStartsWith pre.data hay.data

/-- Python `hay.endswith(suf)`. -/
def strEndsWith (hay suf : String) : Bool :=
  seqStartsWith suf.data.reverse hay.data.reverse

/-- Python `s[:n]` (slicing counts characters). -/
def strTake (s : String) (n : Nat) : String := ⟨s.data.take n⟩

/-- Python whitespace, as far as the captured stderr is concerned. -/
def isPySpace (c : Char) : Bool := c = ' ' || c = '\n' || c = '\t' || c = '\r'

/-- Python `s.strip()` on the character list. -/
def stripList (l : List Char) : List Char :=
  ((l.dropWhile isPySpace).reverse.dropWhile isPySpace).reverse

/-- Helper for splitting a character list at newline characters. -/
def splitNlAux : List Char → List Char → List String
  | [], acc => [⟨acc.reverse⟩]
  | c :: cs, acc =>
      if c = '\n' then ⟨acc.reverse⟩ :: splitNlAux cs []
      else splitNlAux cs (c :: acc)

/-- Python `s.strip().split("\n")`, as `_monitor_process` applies it to the
decoded stderr. -/
def pySplitLines (s : String) : List String := splitNlAux (stripList s.data) []

/-- Python `l[-n:]`. -/
def lastN {α : Type} (l : List α) (n : Nat) : List α := l.drop (l.length - n)

/-! ### `instances.py`: data model -/

/-- `InstanceStatus` (instances.py lines 18-25). -/
inductive InstanceStatus
  | stopped
  | starting
  | running
  | stopping
  | error
  | waiting_signal
deriving DecidableEq

/-- `RecoveryConfig` (instances.py lines 28-34).  The integer fields are
non-negative in every record the daemon builds, so they are carried as `Nat`. -/
structure RecoveryConfig where
  auto_restart : Bool := true
  max_retries : Nat := 3
  retry_delay_seconds : Nat := 5
  restart_on_signal : Bool := true
deriving DecidableEq

/-- `RecordingConfig` (instances.py lines 37-42). -/
structure RecordingConfig where
  enabled : Bool := false
  location : String := "/mnt/sdcard/recordings/"
  max_segment_time : Nat := 60
deriving DecidableEq

/-- The `Instance` dataclass (instances.py lines 45-63).  Note: the dataclass
declares no `instance_type` and no `auto_config` field.  `uptime_start` is an
abstract timestamp. -/
structure Instance where
  id : String
  name : String
  pipeline : String
  status : InstanceStatus := .stopped
  pid : Option Nat := none
  autostart : Bool := false
  trigger_event : Option String := none
  recovery : RecoveryConfig := {}
  recording : RecordingConfig := {}
  created_at : String := ""
  modified_at : String := ""
  error_message : Option String := none
  retry_count : Nat := 0
  uptime_start : Option Nat := none
  recording_active : Bool := false
  error_logs : List String := []
deriving DecidableEq

/-- `TRANSIENT_ERRORS` (instances.py lines 86-93). -/
def TRANSIENT_ERRORS : List String :=
  ["connection refused", "connection reset", "timeout", "buffer underrun",
   "temporary failure", "resource temporarily unavailable"]

/-- `FATAL_ERRORS` (instances.py lines 95-102). -/
def FATAL_ERRORS : List String :=
  ["device not found", "no such file", "permission denied", "no element",
   "invalid pipeline", "encoder failure"]

/-- `any(t in error.lower() for t in TRANSIENT_ERRORS)` (instances.py 323). -/
def isTransient (error : String) : Bool :=
  TRANSIENT_ERRORS.any fun t => strContains (lowerStr error) t

/-- `any(f in error.lower() for f in FATAL_ERRORS)` (instances.py 324). -/
def isFatal (error : String) : Bool :=
  FATAL_ERRORS.any fun f => strContains (lowerStr error) f

/-! ### `instances.py`: the supervisor state machine

`InstanceManager` keeps two dictionaries keyed by instance id:
`self.instances` and `self.processes`.  Both are modelled as association
lists with Python-dict update semantics (in-place replacement of an existing
key, insertion at the end otherwise).  Each operation returns, besides its
Python return value and the updated state, the list of status-change
notifications it issued (the arguments of `_notify_status_change`) and the
list of process-level side effects it performed. -/

/-- Python-dict lookup on an association list. -/
def assocGet {α : Type} : List (String × α) → String → Option α
  | [], _ => none
  | (k, v) :: t, key => if k = key then some v else assocGet t key

/-- Python-dict assignment `d[key] = v`. -/
def assocSet {α : Type} : List (String × α) → String → α → List (String × α)
  | [], key, v => [(key, v)]
  | (k, w) :: t, key, v =>
      if k = key then (key, v) :: t else (k, w) :: assocSet t key v

/-- Python-dict deletion `del d[key]` (no-op when the key is absent, matching
the guarded deletes in the source). -/
def assocDel {α : Type} : List (String × α) → String → List (String × α)
  | [], _ => []
  | (k, w) :: t, key => if k = key then assocDel t key else (k, w) :: assocDel t key

/-- The in-memory state of an `InstanceManager`. -/
structure ManagerState where
  instances : List (String × Instance) := []
  processes : List (String × Nat) := []
deriving DecidableEq

/-- `self.instances.get(instance_id)`. -/
def lookupInst (st : ManagerState) (id : String) : Option Instance :=
  assocGet st.instances id

/-- Exceptions the supervisor can raise. -/
inductive PyErr
  | valueError (msg : String)
  | importError (msg : String)
deriving DecidableEq

/-- Outcome of `asyncio.create_subprocess_exec`: either a child with a pid, or
an exception whose text becomes the error message. -/
inductive SpawnOutcome
  | ok (pid : Nat)
  | fail (msg : String)
deriving DecidableEq

/-- Process-level side effects of supervisor operations. -/
inductive SupOp
  | spawn (pipeline : String)
  | sigint (pid : Nat)
  | kill (pid : Nat)
deriving DecidableEq

/-- How the child reacts during `stop_instance`: exits inside the 10 s
graceful window, needs the force kill, or is already gone
(`ProcessLookupError`). -/
inductive StopOutcome
  | graceful
  | timeoutKill
  | gone
deriving DecidableEq

/-- `InstanceManager.start_instance` (instances.py lines 202-256).
`spawnRes` stands for the result of the subprocess launch, `now` for
`time.time()`.  Returns (Python result, new state, notifications, process
effects). -/
def start_instance (spawnRes : SpawnOutcome) (now : Nat) (id : String)
    (st : ManagerState) :
    Except PyErr Bool × ManagerState × List String × List SupOp :=
  match lookupInst st id with
  | none => (.error (.valueError ("Instance not found: " ++ id)), st, [], [])
  | some inst =>
    if inst.status = .running then
      -- "Instance already running": logged as a warning, reported as success
      (.ok true, st, [], [])
    else
      let inst1 := { inst with status := .starting, error_message := none }
      let st1 := { st with instances := assocSet st.instances id inst1 }
      match spawnRes with
      | .ok pid =>
        let inst2 := { inst1 with
                       pid := some pid, status := .running,
                       uptime_start := some now, retry_count := 0 }
        ( .ok true,
          { st1 with
            instances := assocSet st1.instances id inst2,
            processes := assocSet st1.processes id pid },
          ["starting", "running"], [.spawn inst.pipeline])
      | .fail msg =>
        let inst2 := { inst1 with status := .error, error_message := some msg }
        ( .ok false,
          { st1 with instances := assocSet st1.instances id inst2 },
          ["starting", "error"], [.spawn inst.pipeline])

/-- `InstanceManager._handle_error` (instances.py lines 316-340).  On the
retry path it re-invokes `start_instance`; `spawnRes`/`now` stand for that
restart attempt. -/
def handle_error (spawnRes : SpawnOutcome) (now : Nat) (id : String)
    (error : String) (st : ManagerState) :
    ManagerState × List String × List SupOp :=
  match lookupInst st id with
  | none => (st, [], [])
  | some inst =>
    let toError :=
      let instE := { inst with status := .error, error_message := some error }
      ({ st with instances := assocSet st.instances id instE },
       ["error"], ([] : List SupOp))
    if isTransient error && !isFatal error && inst.recovery.auto_restart then
      if inst.retry_count < inst.recovery.max_retries then
        let inst1 := { inst with retry_count := inst.retry_count + 1 }
        let st1 := { st with instances := assocSet st.instances id inst1 }
        let r := start_instance spawnRes now id st1
        (r.2.1, r.2.2.1, r.2.2.2)
      else toError
    else toError

/-- `InstanceManager._monitor_process` (instances.py lines 271-314), from the
point where `process.communicate()` has returned with `exitCode` and the
decoded `stderr`.  The `finally` block removes the process-table entry after
`_handle_error` has run. -/
def monitor_process_exit (exitCode : Int) (stderr : String)
    (spawnRes : SpawnOutcome) (now : Nat) (id : String) (st : ManagerState) :
    ManagerState × List String × List SupOp :=
  match lookupInst st id with
  | none => ({ st with processes := assocDel st.processes id }, [], [])
  | some inst =>
    let inst1 :=
      if stderr ≠ "" then
        { inst with error_logs := lastN (inst.error_logs ++ pySplitLines stderr) 100 }
      else inst
    let st1 := { st with instances := assocSet st.instances id inst1 }
    if exitCode = 0 then
      let inst2 := { inst1 with status := .stopped, recording_active := false }
      ( { st1 with
          instances := assocSet st1.instances id inst2,
          processes := assocDel st1.processes id },
        ["stopped"], [])
    else
      let errMsg := if stderr ≠ "" then stderr
                    else "Exit code: " ++ toString exitCode
      let r := handle_error spawnRes now id (strTake errMsg 500) st1
      ({ r.1 with processes := assocDel r.1.processes id }, r.2.1, r.2.2)

/-- `InstanceManager.stop_instance` (instances.py lines 342-386). -/
def stop_instance (outcome : StopOutcome) (id : String) (st : ManagerState) :
    Except PyErr Bool × ManagerState × List String × List SupOp :=
  match lookupInst st id with
  | none => (.error (.valueError ("Instance not found: " ++ id)), st, [], [])
  | some inst =>
    if inst.status ≠ .running then
      -- "Instance not running": logged as a warning, reported as success
      (.ok true, st, [], [])
    else
      let inst1 := { inst with status := .stopping }
      let procOps : List SupOp :=
        match assocGet st.processes id with
        | none => []
        | some p =>
          match outcome with
          | .graceful => [.sigint p]
          | .timeoutKill => [.sigint p, .kill p]
          | .gone => [.sigint p]
      let inst2 := { inst1 with
                     status := .stopped, pid := none,
                     uptime_start := none }
      ( .ok true,
        { st with instances := assocSet st.instances id inst2 },
        ["stopping", "stopped"], procOps)

/-- `InstanceManager.delete_instance` (instances.py lines 177-200); the
on-disk deletion is modelled on the store side. -/
def delete_instance (id : String) (st : ManagerState) :
    Except PyErr Bool × ManagerState :=
  match lookupInst st id with
  | none => (.error (.valueError ("Instance not found: " ++ id)), st)
  | some inst =>
    if inst.status = .running then
      (.error (.valueError ("Cannot delete running instance: " ++ id)), st)
    else
      (.ok true, { st with instances := assocDel st.instances id })

/-! ### `auto_instance.py`: configuration and pipeline builder -/

/-- `AudioSource` (auto_instance.py lines 22-25). -/
inductive AudioSource
  | hdmi_rx
  | line_in
deriving DecidableEq

/-- `AutoInstanceConfig` (auto_instance.py lines 28-57).  The float field
`gop_interval_seconds` is carried as `ℚ`; all values the daemon handles are
small dyadic rationals on which Python float arithmetic is exact. -/
structure AutoInstanceConfig where
  gop_interval_seconds : ℚ := 1
  bitrate_kbps : Int := 20000
  rc_mode : Int := 1
  audio_source : AudioSource := .hdmi_rx
  srt_port : Int := 8888
  recording_enabled : Bool := false
  recording_path : String := "/mnt/sdcard/recordings/capture.ts"
  autostart_on_ready : Bool := true
  width : Int := 3840
  height : Int := 2160
  framerate : Int := 60

/-- Python `int()` applied to a real value: truncation toward zero. -/
def pyInt (q : ℚ) : Int := if 0 ≤ q then ⌊q⌋ else ⌈q⌉

/-- `gop = int(config.framerate * config.gop_interval_seconds)`
(auto_instance.py line 96). -/
def gopOf (c : AutoInstanceConfig) : Int :=
  pyInt ((c.framerate : ℚ) * c.gop_interval_seconds)

/-- `audio_device` selection (auto_instance.py line 98). -/
def audioDevice (c : AutoInstanceConfig) : String :=
  if c.audio_source = AudioSource.hdmi_rx then "hw:0,6" else "hw:0,0"

/-- The video branch of the pipeline up to the encoder element
(auto_instance.py lines 108-111). -/
def buildVideoPart (c : AutoInstanceConfig) : String :=
  "v4l2src device=/dev/video71 io-mode=dmabuf do-timestamp=true ! " ++
  "video/x-raw,format=NV21,width=" ++ toString c.width ++
  ",height=" ++ toString c.height ++
  ",framerate=" ++ toString c.framerate ++ "/1 ! " ++
  "queue max-size-buffers=30 max-size-time=0 max-size-bytes=0 ! "

/-- The encoder parameters following the wired `gop` value
(auto_instance.py lines 112-113). -/
def gopRest (c : AutoInstanceConfig) : String :=
  " gop-pattern=0 framerate=" ++ toString c.framerate ++
  " bitrate=" ++ toString c.bitrate_kbps ++
  " rc-mode=" ++ toString c.rc_mode

/-- The `amlvenc` encoder element of the pipeline (auto_instance.py lines
112-113): `gop={gop}` is the value computed on line 96. -/
def gopFragment (c : AutoInstanceConfig) : String :=
  ("amlvenc gop=" ++ toString (gopOf c)) ++ gopRest c

/-- Everything after the encoder element: parser queues, audio branch, muxer
and output sinks (auto_instance.py lines 114-144). -/
def buildTail (c : AutoInstanceConfig) : String :=
  " ! " ++
  "video/x-h265 ! " ++
  "h265parse config-interval=-1 ! " ++
  "queue max-size-buffers=30 max-size-time=0 max-size-bytes=0 ! " ++
  "mux. " ++
  "alsasrc device=" ++ audioDevice c ++ " buffer-time=50000 provide-clock=false " ++
  "slave-method=re-timestamp ! " ++
  "audio/x-raw,rate=48000,channels=2,format=S16LE ! " ++
  "queue max-size-buffers=0 max-size-time=500000000 max-size-bytes=0 ! " ++
  "audioconvert ! audioresample ! avenc_aac bitrate=128000 ! aacparse ! " ++
  "queue max-size-buffers=0 max-size-time=500000000 max-size-bytes=0 ! " ++
  "mux. " ++
  "mpegtsmux name=mux alignment=7 latency=100000000" ++
  (if c.recording_enabled then
    " ! tee name=t " ++
    "t. ! queue ! filesink location=\"" ++ c.recording_path ++ "\" " ++
    "t. ! queue ! srtsink uri=\"srt://:" ++ toString c.srt_port ++ "\" " ++
    "wait-for-connection=false latency=600 sync=false"
  else
    " ! srtsink uri=\"srt://:" ++ toString c.srt_port ++ "\" " ++
    "wait-for-connection=false latency=600 sync=false")

/-- `PipelineBuilder.build` (auto_instance.py lines 86-146), split at the
encoder element so that the wiring of `gop` is visible. -/
def build (c : AutoInstanceConfig) : String :=
  buildVideoPart c ++ gopFragment c ++ buildTail c

/-! ### `auto_instance.py`: `AutoInstanceManager.create_or_update` -/

/-- The output-side TX status object, as far as `create_or_update` reads it
(fields `width`, `height`, `fps`). -/
structure TxStatus where
  width : Int := 0
  height : Int := 0
  fps : Int := 0
deriving DecidableEq

/-- The state owned by an `AutoInstanceManager`: its in-memory config, the
remembered managed-instance id, and the supervisor it drives. -/
structure AIMState where
  config : Option AutoInstanceConfig := none
  instance_id : Option String := none
  mgr : ManagerState := {}

/-- The module-level names `instances.py` actually defines.  `InstanceType`
is not among them, although auto_instance.py line 290 tries to import it. -/
def instancesModuleNames : List String :=
  ["InstanceStatus", "RecoveryConfig", "RecordingConfig", "Instance",
   "TRANSIENT_ERRORS", "FATAL_ERRORS", "InstanceManager"]

/-- `from instances import name`: succeeds exactly when `instances.py`
defines `name`. -/
def importFromInstances (name : String) : Except PyErr Unit :=
  if instancesModuleNames.contains name then .ok ()
  else .error (.importError name)

/-- The TX overlay at the top of `create_or_update` (auto_instance.py lines
266-269).  Python `x or y` keeps `x` when it is truthy, i.e. a non-zero
integer. -/
def overlayTx (c : AutoInstanceConfig) : Option TxStatus → AutoInstanceConfig
  | none => c
  | some t =>
      { c with
        width := if t.width ≠ 0 then t.width else c.width,
        height := if t.height ≠ 0 then t.height else c.height,
        framerate := if t.fps ≠ 0 then t.fps else c.framerate }

/-- The `try`-guarded cleanup of the previous managed instance
(auto_instance.py lines 276-287): stop it when running, then delete it; any
exception is logged and swallowed. -/
def cleanupExisting (iid : Option String) (oc : StopOutcome)
    (m : ManagerState) : ManagerState :=
  match iid with
  | none => m
  | some i =>
    match lookupInst m i with
    | none => m
    | some existing =>
      let m1 := if existing.status = .running then (stop_instance oc i m).2.1 else m
      (delete_instance i m1).2

/-- `AutoInstanceManager.create_or_update` (auto_instance.py lines 248-313).
After overlaying the TX resolution, storing the config, building the
pipeline and cleaning up the previous managed instance, line 290 executes
`from instances import InstanceType`; `instances.py` defines no such name,
so the call raises `ImportError` here.  The instance creation, tagging and
id bookkeeping on lines 292-313 are therefore unreachable and the model
stops at the failed import. -/
def create_or_update (cfg0 : AutoInstanceConfig) (tx : Option TxStatus)
    (oc : StopOutcome) (s : AIMState) : Except PyErr String × AIMState :=
  let cfg := overlayTx cfg0 tx
  let s1 := { s with config := some cfg }
  let _pipeline := build cfg
  let s2 := { s1 with mgr := cleanupExisting s1.instance_id oc s1.mgr }
  match importFromInstances "InstanceType" with
  | .error e => (.error e, s2)
  | .ok _ =>
      -- unreachable: the import above always fails, so the code below
      -- auto_instance.py line 290 never runs
      (.error (.importError "InstanceType"), s2)

/-! ### `api.py`: the `SetAutoInstanceConfig` D-Bus method -/

/-- The typed D-Bus errors of the interface (api.py lines 35-52 and the
`DBusError` names raised in the method bodies). -/
inductive DBusErr
  | invalidConfig (msg : String)
  | instanceNotFound (msg : String)
  | instanceRunning (msg : String)
  | generic (msg : String)
deriving DecidableEq

/-- The decoded JSON payload of `SetAutoInstanceConfig`, after the
`config_data.get(key, default)` calls of api.py lines 283-290 have supplied
defaults for missing keys. -/
structure ConfigData where
  gop_interval_seconds : ℚ := 1
  bitrate_kbps : Int := 20000
  rc_mode : Int := 1
  audio_source : String := "hdmi_rx"
  srt_port : Int := 8888
  recording_enabled : Bool := false
  recording_path : String := "/mnt/sdcard/recordings/capture.ts"
  autostart_on_ready : Bool := true

/-- `AudioSource(value)`: raises `ValueError` on an unknown value. -/
def parseAudioSource (s : String) : Option AudioSource :=
  if s = "hdmi_rx" then some .hdmi_rx
  else if s = "line_in" then some .line_in
  else none

/-- The `AutoInstanceConfig(...)` constructed by `SetAutoInstanceConfig`
(api.py lines 282-291); `width`/`height`/`framerate` keep their dataclass
defaults. -/
def configFromData (d : ConfigData) (a : AudioSource) : AutoInstanceConfig :=
  { gop_interval_seconds := d.gop_interval_seconds,
    bitrate_kbps := d.bitrate_kbps,
    rc_mode := d.rc_mode,
    audio_source := a,
    srt_port := d.srt_port,
    recording_enabled := d.recording_enabled,
    recording_path := d.recording_path,
    autostart_on_ready := d.autostart_on_ready }

/-- `GstManagerInterface.SetAutoInstanceConfig` (api.py lines 252-315).
There is no validation of `rc_mode` or `srt_port`; the only failure modes
are the swallowed `ValueError` from `AudioSource(...)` and the swallowed
exception from `create_or_update`, both of which merely `return False`.
`tx` is the mock TX status derived from the event manager (api.py lines
294-308), `None` when unavailable. -/
def SetAutoInstanceConfig (d : ConfigData) (tx : Option TxStatus)
    (oc : StopOutcome) (s : AIMState) : Except DBusErr Bool × AIMState :=
  match parseAudioSource d.audio_source with
  | none => (.ok false, s)
  | some a =>
    match create_or_update (configFromData d a) tx oc s with
    | (.error _, s2) => (.ok false, s2)
    | (.ok _, s2) => (.ok true, s2)

/-! ### `history.py`: the persistence store

The store is modelled over an explicit file system: a list of files, each
with a path, contents and a modification time.  File contents are either a
decoded JSON record (an ordered list of key/value pairs, as `json.load`
produces and `json.dump` writes) or `truncated`, the state of a file that
was opened with mode `"w"` but whose dump has not completed.  The primitive
file operations a store call performs are recorded as a trace of `FileOp`s;
`applyOps` gives their effect on the file system.  A crash partway through a
call corresponds to applying only a prefix of the trace. -/

/-- A JSON scalar value, as far as the store inspects records.  The store
treats record contents as opaque except for the keys `"id"` and
`"_history_file"`, so scalar payloads suffice for the embedded fields. -/
inductive JVal
  | s (v : String)
  | i (v : Int)
  | b (v : Bool)
  | null
deriving DecidableEq

/-- A decoded JSON object: ordered key/value pairs with unique keys. -/
abbrev Record : Type := List (String × JVal)

/-- `record.get(key)`. -/
def recGet : Record → String → Option JVal
  | [], _ => none
  | (k, v) :: t, key => if k = key then some v else recGet t key

/-- `record.pop(key, None)`: the record without the given key. -/
def eraseKey : Record → String → Record
  | [], _ => []
  | (k, v) :: t, key =>
      if k = key then eraseKey t key else (k, v) :: eraseKey t key

/-- `key in record`. -/
def hasKey : Record → String → Bool
  | [], _ => false
  | (k, _) :: t, key => if k = key then true else hasKey t key

/-- Contents of a file in the model. -/
inductive FileData
  | json (r : Record)
  | truncated
deriving DecidableEq

/-- One file of the modelled file system. -/
structure FSEntry where
  path : String
  data : FileData
  mtime : Nat
deriving DecidableEq

/-- The modelled file system. -/
abbrev FS : Type := List FSEntry

/-- Read a file. -/
def fsGet : FS → String → Option FileData
  | [], _ => none
  | e :: t, p => if e.path = p then some e.data else fsGet t p

/-- Create or overwrite a file. -/
def fsPut : FS → String → FileData → Nat → FS
  | [], p, d, t => [⟨p, d, t⟩]
  | e :: rest, p, d, t =>
      if e.path = p then ⟨p, d, t⟩ :: rest else e :: fsPut rest p d t

/-- Remove a file. -/
def fsDel : FS → String → FS
  | [], _ => []
  | e :: rest, p => if e.path = p then fsDel rest p else e :: fsDel rest p

/-- `path.exists()`. -/
def fsExists (fs : FS) (p : String) : Bool := (fsGet fs p).isSome

/-- The primitive file operations `HistoryManager.save_instance` performs.
`rename` and `fsyncFile` are part of the vocabulary so that their absence
from a trace is expressible; `save_instance` never emits them. -/
inductive FileOp
  | mkdirp (p : String)
  | copy (src dst : String)
  | openTrunc (p : String)
  | writeJson (p : String) (r : Record)
  | unlink (p : String)
  | rename (src dst : String)
  | fsyncFile (p : String)
deriving DecidableEq

/-- Is the operation a rename? -/
def FileOp.isRename : FileOp → Bool
  | .rename _ _ => true
  | _ => false

/-- Is the operation an fsync? -/
def FileOp.isFsync : FileOp → Bool
  | .fsyncFile _ => true
  | _ => false

/-- Effect of one file operation on the file system. -/
def applyOp (now : Nat) (fs : FS) : FileOp → FS
  | .mkdirp _ => fs
  | .copy src dst =>
      match fsGet fs src with
      | some d => fsPut fs dst d now
      | none => fs
  | .openTrunc p => fsPut fs p .truncated now
  | .writeJson p r => fsPut fs p (.json r) now
  | .unlink p => fsDel fs p
  | .rename src dst =>
      match fsGet fs src with
      | some d => fsDel (fsPut fs dst d now) src
      | none => fs
  | .fsyncFile _ => fs

/-- Effect of a sequence of file operations. -/
def applyOps (now : Nat) (fs : FS) (ops : List FileOp) : FS :=
  ops.foldl (applyOp now) fs

/-- `self.instances_dir / instance_id`. -/
def instanceDir (root id : String) : String := root ++ "/" ++ id

/-- `instance_dir / "current.json"`. -/
def currentPath (root id : String) : String :=
  instanceDir root id ++ "/current.json"

/-- `instance_dir / "history"`. -/
def historyDir (root id : String) : String := instanceDir root id ++ "/history"

/-- `history_dir / f"{timestamp}.json"`. -/
def historyFilePath (root id ts : String) : String :=
  historyDir root id ++ "/" ++ ts ++ ".json"

/-- The files `history_dir.glob("*.json")` finds. -/
def histEntries (fs : FS) (hdir : String) : List FSEntry :=
  fs.filter fun e =>
    strStartsWith e.path (hdir ++ "/") && strEndsWith e.path ".json"

/-- Insertion into a list kept in decreasing `mtime` order. -/
def insertByMtime (e : FSEntry) : List FSEntry → List FSEntry
  | [] => [e]
  | x :: xs =>
      if x.mtime ≤ e.mtime then e :: x :: xs else x :: insertByMtime e xs

/-- `sorted(files, key=mtime, reverse=True)`. -/
def sortByMtimeDesc (l : List FSEntry) : List FSEntry :=
  l.foldr insertByMtime []

/-- `HistoryManager._cleanup_history` (history.py lines 134-152), as the
unlink operations it performs: everything beyond the newest
`max_history_files` entries is removed. -/
def cleanupHistoryOps (fs : FS) (hdir : String) (maxHist : Nat) : List FileOp :=
  ((sortByMtimeDesc (histEntries fs hdir)).drop maxHist).map fun e =>
    FileOp.unlink e.path

/-- The value `instance.get("id")` must be a non-empty string
(`if not instance_id: return False`, history.py lines 84-87). -/
def recGetId (r : Record) : Option String :=
  match recGet r "id" with
  | some (.s v) => if v = "" then none else some v
  | _ => none

/-- `HistoryManager.save_instance` (history.py lines 73-107): make the
instance directory; if `current.json` exists, back it up via
`_backup_config` (history.py lines 109-132: make the history directory,
copy `current.json` to `history/<timestamp>.json`, trim old backups);
finally open `current.json` with mode `"w"` (truncating it) and dump the
new record into it.  There is no temporary file, no fsync and no rename.
Returns (Python result, resulting file system, operation trace). -/
def save_instance (root : String) (maxHist : Nat) (fs : FS) (inst : Record)
    (ts : String) (now : Nat) : Bool × FS × List FileOp :=
  match recGetId inst with
  | none => (false, fs, [])
  | some id =>
    let dir := instanceDir root id
    let current := currentPath root id
    let hdir := historyDir root id
    let opsMk := [FileOp.mkdirp dir]
    let backup :=
      if fsExists fs current then
        let opsB := [FileOp.mkdirp hdir,
                     FileOp.copy current (historyFilePath root id ts)]
        let fsB := applyOps now fs opsB
        let opsC := cleanupHistoryOps fsB hdir maxHist
        (applyOps now fsB opsC, opsB ++ opsC)
      else (fs, [])
    let opsW := [FileOp.openTrunc current, FileOp.writeJson current inst]
    (true, applyOps now backup.1 opsW, opsMk ++ backup.2 ++ opsW)

/-- `HistoryManager.export_instance` (history.py lines 210-233): read
`current.json`, remove the internal `_history_file` key, and return the
re-serialized record.  A missing file gives `None`; a half-written file
fails to decode and also gives `None`.  No other key — in particular none
of the runtime fields — is removed. -/
def export_instance (root : String) (fs : FS) (id : String) : Option Record :=
  match fsGet fs (currentPath root id) with
  | none => none
  | some .truncated => none
  | some (.json r) => some (eraseKey r "_history_file")

/-! ### Helper lemmas -/

/-- Looking up a key right after setting it. -/
lemma assocGet_assocSet_self {α : Type} (l : List (String × α)) (k : String)
    (v : α) : assocGet (assocSet l k v) k = some v := by
  induction l with
  | nil => simp [assocSet, assocGet]
  | cons e t ih =>
    obtain ⟨k1, v1⟩ := e
    by_cases h : k1 = k
    · simp [assocSet, assocGet, h]
    · simp [assocSet, assocGet, h, ih]

/-- Looking up a key right after deleting it. -/
lemma assocGet_assocDel_self {α : Type} (l : List (String × α)) (k : String) :
    assocGet (assocDel l k) k = none := by
  induction l with
  | nil => simp [assocDel, assocGet]
  | cons e t ih =>
    obtain ⟨k1, v1⟩ := e
    by_cases h : k1 = k
    · simp [assocDel, h, ih]
    · simp [assocDel, assocGet, h, ih]

/-- Length of the character data of a string concatenation. -/
lemma data_length_append (a b : String) :
    (a ++ b).data.length = a.data.length + b.data.length := by
  simp [String.data_append]

/-- The `current.json` path of an instance is never one of its history
files (the two have different lengths under any timestamp). -/
lemma currentPath_ne_historyFilePath (root id ts : String) :
    currentPath root id ≠ historyFilePath root id ts := by
  intro h
  have hlen := congrArg (fun s => s.data.length) h
  simp only [currentPath, historyFilePath, historyDir, instanceDir,
    data_length_append] at hlen
  have h1 : ("/current.json" : String).data.length = 13 := rfl
  have h2 : ("/history" : String).data.length = 8 := rfl
  have h3 : ("/" : String).data.length = 1 := rfl
  have h4 : (".json" : String).data.length = 5 := rfl
  rw [h1, h2, h3, h4] at hlen
  omega

/-- Reading a file right after writing it. -/
lemma fsGet_fsPut_self (fs : FS) (p : String) (d : FileData) (t : Nat) :
    fsGet (fsPut fs p d t) p = some d := by
  induction fs with
  | nil => simp [fsPut, fsGet]
  | cons e rest ih =>
    by_cases h : e.path = p
    · simp [fsPut, fsGet, h]
    · simp [fsPut, fsGet, h, ih]

/-- Writing one file does not affect reads of another. -/
lemma fsGet_fsPut_ne (fs : FS) (p q : String) (d : FileData) (t : Nat)
    (h : q ≠ p) : fsGet (fsPut fs p d t) q = fsGet fs q := by
  induction fs with
  | nil => simp [fsPut, fsGet, h, Ne.symm h]
  | cons e rest ih =>
    by_cases he : e.path = p
    · simp [fsPut, fsGet, he, h, Ne.symm h]
    · by_cases hq : e.path = q
      · simp [fsPut, fsGet, he, hq, h, Ne.symm h]
      · simp [fsPut, fsGet, he, hq, ih]

/-- Removing one key of a record leaves membership of every other key
unchanged. -/
lemma hasKey_eraseKey_ne (r : Record) (key k : String) (h : k ≠ key) :
    hasKey (eraseKey r key) k = hasKey r k := by
  induction r with
  | nil => rfl
  | cons e t ih =>
    obtain ⟨k1, v1⟩ := e
    by_cases h1 : k1 = key
    · subst h1
      simp [eraseKey, hasKey, Ne.symm h, ih]
    · by_cases h2 : k1 = k
      · simp [eraseKey, hasKey, h1, h2, h]
      · simp [eraseKey, hasKey, h1, h2, ih]

/-- The built pipeline string is exactly the video part, then the encoder
element carrying `gop=` followed by the computed `gopOf` value, then the
rest of the pipeline. -/
lemma build_gop_wiring (c : AutoInstanceConfig) :
    build c = buildVideoPart c ++ ("amlvenc gop=" ++ toString (gopOf c)) ++
      (gopRest c ++ buildTail c) := by
  simp only [build, gopFragment, String.append_assoc]

/-! ### Concrete fixtures used by the claim theorems -/

/-- A running instance whose child will report a transient error (C2). -/
def c2Inst : Instance :=
  { id := "y", name := "Y", pipeline := "srtsrc ! fakesink", status := .running,
    pid := some 200, uptime_start := some 20,
    recovery := { auto_restart := true, max_retries := 3 } }

/-- Supervisor state holding `c2Inst` and its process-table entry (C2). -/
def c2St : ManagerState :=
  { instances := [("y", c2Inst)], processes := [("y", 200)] }

/-- The reaper handling a "connection refused" child failure of `c2Inst`,
with a fresh pid 201 available for the restart attempt (C2). -/
def c2Run := handle_error (.ok 201) 2000 "y" "connection refused" c2St

/-- The instance of the retry scenario: `auto_restart=true, max_retries=2`,
fresh (C3). -/
def c3Inst : Instance :=
  { id := "x", name := "X", pipeline := "fakesrc ! fakesink",
    recovery := { auto_restart := true, max_retries := 2 } }

/-- Initial supervisor state of the retry scenario (C3). -/
def c3St0 : ManagerState := { instances := [("x", c3Inst)] }

/-- Step 1 of the scenario: `start_instance`; the spawn yields pid 100 (C3). -/
def c3Start := start_instance (.ok 100) 1000 "x" c3St0

/-- Step 2: the child exits with code 1 and stderr "connection refused";
pid 101 would be available for a restart (C3). -/
def c3Exit :=
  monitor_process_exit 1 "connection refused" (.ok 101) 1010 "x" c3Start.2.1

/-- All status-change notifications observed across the scenario (C3). -/
def c3Trace : List String := c3Start.2.2.1 ++ c3Exit.2.1

/-- A running instance with pid 300 whose child exits normally (C4). -/
def c4Inst : Instance :=
  { id := "z", name := "Z", pipeline := "videotestsrc ! fakesink",
    status := .running, pid := some 300, uptime_start := some 50 }

/-- Supervisor state holding `c4Inst` (C4). -/
def c4St : ManagerState :=
  { instances := [("z", c4Inst)], processes := [("z", 300)] }

/-- The reaper observing a clean exit (code 0, empty stderr) of `c4Inst`
(C4). -/
def c4Exit := monitor_process_exit 0 "" (.fail "unused") 0 "z" c4St

/-- The record stored at `current.json` before the save (C5). -/
def c5recOld : Record := [("id", .s "abc"), ("name", .s "Old")]

/-- The record being saved (C5). -/
def c5recNew : Record := [("id", .s "abc"), ("name", .s "New")]

/-- A store holding the previous record of instance `abc` (C5). -/
def c5fs : FS := [⟨"instances/abc/current.json", .json c5recOld, 0⟩]

/-- The save of `c5recNew` over `c5recOld` (C5). -/
def c5save := save_instance "instances" 100 c5fs c5recNew "20260101_000000" 1

/-- A config on which truncation and rounding disagree:
`framerate = 3`, `gop_interval_seconds = 0.625` (an exact binary float), so
`framerate × interval = 1.875` (C6). -/
def c6cex : AutoInstanceConfig :=
  { framerate := 3, gop_interval_seconds := (5 : ℚ)/8 }

/-- The boundary configuration of the claim: all defaults, i.e.
`gop_interval_seconds = 1.0` and `framerate = 60` (C6). -/
def cfg60 : AutoInstanceConfig := {}

/-- A stored record carrying runtime fields, as `Instance.to_dict` persists
them (C7). -/
def c7rec : Record :=
  [("id", .s "abc"), ("name", .s "Cam"), ("pipeline", .s "fakesrc ! fakesink"),
   ("status", .s "error"), ("pid", .i 4242), ("error_message", .s "boom"),
   ("retry_count", .i 2), ("uptime_start", .null),
   ("_history_file", .s "x.json")]

/-- A store holding `c7rec` as the current record of instance `abc` (C7). -/
def c7fs : FS := [⟨"instances/abc/current.json", .json c7rec, 0⟩]

/-- A `SetAutoInstanceConfig` payload with `rc_mode = 5 ∉ {0,1,2}` and
`srt_port = 70000 ∉ [1,65535]` (C8). -/
def c8Data : ConfigData := { rc_mode := 5, srt_port := 70000 }

/-- The previously managed (stopped) auto instance (C8). -/
def c8OldInst : Instance :=
  { id := "old1", name := "Auto HDMI Capture", pipeline := "p" }

/-- Controller state remembering `c8OldInst` as the managed instance (C8). -/
def c8State : AIMState :=
  { config := none, instance_id := some "old1",
    mgr := { instances := [("old1", c8OldInst)] } }

/-- A running instance with pid 400 (C9). -/
def c9Inst : Instance :=
  { id := "w", name := "W", pipeline := "fakesrc ! fakesink",
    status := .running, pid := some 400, uptime_start := some 10 }

/-- Supervisor state holding `c9Inst` (C9). -/
def c9St : ManagerState :=
  { instances := [("w", c9Inst)], processes := [("w", 400)] }

/-- A stopped instance with populated runtime fields (C10). -/
def c10Inst : Instance :=
  { id := "v", name := "V", pipeline := "fakesrc ! fakesink",
    status := .error, retry_count := 2, error_message := some "boom",
    error_logs := ["a", "b"] }

/-- Supervisor state holding `c10Inst` (C10). -/
def c10St : ManagerState := { instances := [("v", c10Inst)] }

/-! ### Claim theorems -/

/-- C1: the claim says `create_or_update(new_config, tx_status?)` creates a
fresh "Auto HDMI Capture" instance, tags it `instance_type=auto` with an
embedded `auto_config` snapshot, sets autostart and trigger event, persists
it and remembers its id.  In the code this never happens: every call raises
`ImportError` at `from instances import InstanceType` (auto_instance.py line
290) because `instances.py` defines no `InstanceType` (nor does its
`Instance` dataclass have `instance_type`/`auto_config` fields), so the call
fails after the prior managed instance has been cleaned up and before
anything is created, and the remembered id is never updated. -/
theorem C1_create_or_update_import_error (cfg : AutoInstanceConfig)
    (tx : Option TxStatus) (oc : StopOutcome) (s : AIMState) :
    (create_or_update cfg tx oc s).1 = .error (.importError "InstanceType") ∧
    (create_or_update cfg tx oc s).2.instance_id = s.instance_id :=
  ⟨rfl, rfl⟩

/-- C2: the claim says a transient, non-fatal classification with
`auto_restart=true` and `retry_count < max_retries` yields a retry in which
the instance re-enters `starting`.  Evaluating the reaper on exactly that
input ("connection refused" is transient and not fatal, `auto_restart=true`,
`0 < 3`) shows the retry never happens: `retry_count` is incremented and
`start_instance` is re-invoked, but the status is still `running`, so the
restart returns immediately — no `starting` notification is issued, no child
is spawned, and the instance stays `running` with its dead child reaped. -/
theorem C2_transient_retry_leaves_running :
    isTransient "connection refused" = true ∧
    isFatal "connection refused" = false ∧
    c2Inst.recovery.auto_restart = true ∧
    c2Inst.retry_count < c2Inst.recovery.max_retries ∧
    c2Run.2.1 = [] ∧
    (lookupInst c2Run.1 "y").map (·.status) = some .running ∧
    (lookupInst c2Run.1 "y").map (·.retry_count) = some 1 ∧
    c2Run.2.2 = [] := by decide

/-- C3: the claim predicts transitions `starting → running → starting →
running` with final `retry_count = 1` for a child dying with stderr
"connection refused" under `auto_restart=true, max_retries=2`.  Evaluating
the scenario shows the observed transitions are only `starting → running`:
the retry path re-invokes `start_instance` while the status is still
`running`, so it returns without spawning anything (no second spawn effect),
leaving the instance marked `running` with the stale pid 100, an empty
process table, and `retry_count = 1`. -/
theorem C3_retry_scenario_observed :
    c3Trace = ["starting", "running"] ∧
    (lookupInst c3Exit.1 "x").map (·.status) = some .running ∧
    (lookupInst c3Exit.1 "x").map (·.retry_count) = some 1 ∧
    (lookupInst c3Exit.1 "x").map (·.pid) = some (some 100) ∧
    c3Exit.1.processes = [] ∧
    c3Exit.2.2 = [] := by decide

/-- C4 counterexample: an instance whose child exits normally ends with
status `stopped` while its `pid` field still holds the stale pid 300 — the
claimed invariant "every stopped or error instance has pid = none" is false. -/
theorem C4_normal_exit_keeps_pid_counterexample :
    (lookupInst c4Exit.1 "z").map (·.status) = some .stopped ∧
    (lookupInst c4Exit.1 "z").map (·.pid) = some (some 300) := by decide

/-- C4 (amended): after the reaper observes a child exit it removes the
instance's process-table entry — so the instance owns no child process —
but it leaves the `pid` field untouched: a normal exit (code 0) yields
status `stopped` with the stale pid retained, and a non-zero exit whose
stderr tail is classified fatal yields status `error` with the stale pid
retained.  An explicit `stop_instance` of a running instance does reset
`pid` to `none`. -/
theorem C4_pid_retained_after_reap (st : ManagerState) (id stderr : String)
    (inst : Instance) (sp : SpawnOutcome) (now : Nat) (ec : Int)
    (oc : StopOutcome)
    (h : lookupInst st id = some inst) (hrun : inst.status = .running)
    (hne : stderr ≠ "") (hfat : isFatal (strTake stderr 500) = true)
    (hec : ec ≠ 0) :
    ((lookupInst (monitor_process_exit 0 stderr sp now id st).1 id).map
        (·.status) = some .stopped ∧
     (lookupInst (monitor_process_exit 0 stderr sp now id st).1 id).map
        (·.pid) = some inst.pid ∧
     assocGet (monitor_process_exit 0 stderr sp now id st).1.processes id
        = none) ∧
    ((lookupInst (monitor_process_exit ec stderr sp now id st).1 id).map
        (·.status) = some .error ∧
     (lookupInst (monitor_process_exit ec stderr sp now id st).1 id).map
        (·.pid) = some inst.pid ∧
     assocGet (monitor_process_exit ec stderr sp now id st).1.processes id
        = none) ∧
    (lookupInst (stop_instance oc id st).2.1 id).map (·.pid) = some none := by
  refine ⟨?_, ?_, ?_⟩
  · simp only [monitor_process_exit, h]
    simp [lookupInst, assocGet_assocSet_self, assocGet_assocDel_self, hne]
  · simp only [monitor_process_exit, h]
    rw [if_pos hne, if_neg hec, if_pos hne]
    simp only [handle_error, lookupInst, assocGet_assocSet_self]
    simp [hfat, lookupInst, assocGet_assocSet_self, assocGet_assocDel_self]
  · simp only [stop_instance, h]
    rw [if_neg (by simp [hrun])]
    simp [lookupInst, assocGet_assocSet_self]

/-- C4 witness: the amended theorem applied to the concrete state `c4St`,
with stderr "No such file or directory" (fatal) and exit code 1 for the
error arm. -/
theorem C4_pid_retained_after_reap_witness :
    lookupInst c4St "z" = some c4Inst ∧
    c4Inst.status = .running ∧
    ("No such file or directory" : String) ≠ "" ∧
    isFatal (strTake "No such file or directory" 500) = true ∧
    (1 : Int) ≠ 0 ∧
    (((lookupInst (monitor_process_exit 0 "No such file or directory"
          (.fail "unused") 0 "z" c4St).1 "z").map (·.status) = some .stopped ∧
      (lookupInst (monitor_process_exit 0 "No such file or directory"
          (.fail "unused") 0 "z" c4St).1 "z").map (·.pid) = some c4Inst.pid ∧
      assocGet (monitor_process_exit 0 "No such file or directory"
          (.fail "unused") 0 "z" c4St).1.processes "z" = none) ∧
     ((lookupInst (monitor_process_exit 1 "No such file or directory"
          (.fail "unused") 0 "z" c4St).1 "z").map (·.status) = some .error ∧
      (lookupInst (monitor_process_exit 1 "No such file or directory"
          (.fail "unused") 0 "z" c4St).1 "z").map (·.pid) = some c4Inst.pid ∧
      assocGet (monitor_process_exit 1 "No such file or directory"
          (.fail "unused") 0 "z" c4St).1.processes "z" = none) ∧
     (lookupInst (stop_instance .graceful "z" c4St).2.1 "z").map (·.pid)
        = some none) :=
  ⟨rfl, rfl, by decide, by decide, by decide,
   C4_pid_retained_after_reap c4St "z" "No such file or directory" c4Inst
     (.fail "unused") 0 1 .graceful rfl rfl (by decide) (by decide)
     (by decide)⟩

/-- C5 counterexample: the operation trace of a concrete save contains no
rename at all (so the current record is not replaced by an atomic
write-temp-then-rename), and a save that fails right after the truncating
open of `current.json` leaves it half-written — the previously stored
current record is not intact. -/
theorem C5_save_not_atomic_counterexample :
    (c5save.2.2.all fun op => !op.isRename) = true ∧
    (c5save.2.2.all fun op => !op.isFsync) = true ∧
    fsGet (applyOps 1 c5fs (c5save.2.2.take 4)) "instances/abc/current.json"
      = some .truncated := by decide

/-- C5 (amended): `save_instance` first copies the previous `current.json`
to `history/<timestamp>.json` and then overwrites `current.json` in place
with a truncating open followed by the dump — there is no temporary file,
no fsync and no rename.  A save failing between the truncating open and the
dump leaves `current.json` half-written; the previous record survives only
as the history backup.  (The retention hypothesis `hclean` says the history
trim removes nothing, which holds whenever the bound is not exceeded.) -/
theorem C5_save_backup_then_overwrite (root id ts : String) (maxHist : Nat)
    (fs : FS) (inst prev : Record) (now : Nat)
    (h1 : recGetId inst = some id)
    (h2 : fsGet fs (currentPath root id) = some (.json prev))
    (hclean : cleanupHistoryOps
        (fsPut fs (historyFilePath root id ts) (FileData.json prev) now)
        (historyDir root id) maxHist = []) :
    (save_instance root maxHist fs inst ts now).2.2 =
      [FileOp.mkdirp (instanceDir root id), FileOp.mkdirp (historyDir root id),
       FileOp.copy (currentPath root id) (historyFilePath root id ts),
       FileOp.openTrunc (currentPath root id),
       FileOp.writeJson (currentPath root id) inst] ∧
    fsGet (save_instance root maxHist fs inst ts now).2.1 (currentPath root id)
      = some (.json inst) ∧
    fsGet (save_instance root maxHist fs inst ts now).2.1
      (historyFilePath root id ts) = some (.json prev) ∧
    fsGet (applyOps now fs
        ((save_instance root maxHist fs inst ts now).2.2.take 4))
      (currentPath root id) = some .truncated ∧
    fsGet (applyOps now fs
        ((save_instance root maxHist fs inst ts now).2.2.take 4))
      (historyFilePath root id ts) = some (.json prev) := by
  have hne := currentPath_ne_historyFilePath root id ts
  have hex : fsExists fs (currentPath root id) = true := by
    simp [fsExists, h2]
  have hsave : save_instance root maxHist fs inst ts now =
      (true,
       fsPut (fsPut (fsPut fs (historyFilePath root id ts) (.json prev) now)
           (currentPath root id) .truncated now)
         (currentPath root id) (.json inst) now,
       [FileOp.mkdirp (instanceDir root id), FileOp.mkdirp (historyDir root id),
        FileOp.copy (currentPath root id) (historyFilePath root id ts),
        FileOp.openTrunc (currentPath root id),
        FileOp.writeJson (currentPath root id) inst]) := by
    simp only [save_instance, h1, hex, if_true, applyOps, List.foldl, applyOp,
      h2, hclean, List.append_nil]
    rfl
  rw [hsave]
  refine ⟨rfl, ?_, ?_, ?_, ?_⟩
  · rw [fsGet_fsPut_self]
  · rw [fsGet_fsPut_ne _ _ _ _ _ (Ne.symm hne),
      fsGet_fsPut_ne _ _ _ _ _ (Ne.symm hne), fsGet_fsPut_self]
  · simp only [List.take, applyOps, List.foldl, applyOp, h2]
    rw [fsGet_fsPut_self]
  · simp only [List.take, applyOps, List.foldl, applyOp, h2]
    rw [fsGet_fsPut_ne _ _ _ _ _ (Ne.symm hne), fsGet_fsPut_self]

/-- C5 witness: the amended theorem applied to the concrete store `c5fs`. -/
theorem C5_save_backup_then_overwrite_witness :
    recGetId c5recNew = some "abc" ∧
    fsGet c5fs (currentPath "instances" "abc") = some (.json c5recOld) ∧
    cleanupHistoryOps
      (fsPut c5fs (historyFilePath "instances" "abc" "20260101_000000")
        (FileData.json c5recOld) 1)
      (historyDir "instances" "abc") 100 = [] ∧
    fsGet (save_instance "instances" 100 c5fs c5recNew "20260101_000000" 1).2.1
      (currentPath "instances" "abc") = some (.json c5recNew) ∧
    fsGet (save_instance "instances" 100 c5fs c5recNew "20260101_000000" 1).2.1
      (historyFilePath "instances" "abc" "20260101_000000")
      = some (.json c5recOld) :=
  ⟨by decide, by decide, by decide,
   (C5_save_backup_then_overwrite "instances" "abc" "20260101_000000" 100
      c5fs c5recNew c5recOld 1 (by decide) (by decide) (by decide)).2.1,
   (C5_save_backup_then_overwrite "instances" "abc" "20260101_000000" 100
      c5fs c5recNew c5recOld 1 (by decide) (by decide) (by decide)).2.2.1⟩

/-- C6 counterexample: for `framerate = 3`, `gop_interval_seconds = 0.625`
the pipeline wires `gop = 1` (the code truncates with `int()`), while
`round(framerate × gop_interval_seconds) = round(1.875) = 2` — the claimed
equality with `round` is false, as the wiring of `gopOf` into the encoder
element of the built string shows. -/
theorem C6_gop_truncation_counterexample :
    gopOf c6cex = 1 ∧
    round ((c6cex.framerate : ℚ) * c6cex.gop_interval_seconds) = 2 ∧
    build c6cex = buildVideoPart c6cex ++
      ("amlvenc gop=" ++ toString (gopOf c6cex)) ++
      (gopRest c6cex ++ buildTail c6cex) := by
  refine ⟨?_, ?_, build_gop_wiring c6cex⟩
  · simp only [gopOf, c6cex, pyInt]
    rw [if_pos (by norm_num)]
    norm_num [Int.floor_eq_iff]
  · show round (((3 : Int) : ℚ) * ((5 : ℚ)/8)) = 2
    rw [round_eq]; norm_num [Int.floor_eq_iff]

/-- C6 (amended): the gop value wired into the encoder element of the built
pipeline equals the truncation toward zero (Python `int()`) of
`framerate × gop_interval_seconds`, not its rounding; on the claimed
boundary instance `gop_interval_seconds = 1.0`, `framerate = 60` the two
agree and `gop = 60`. -/
theorem C6_gop_is_truncation :
    (∀ c : AutoInstanceConfig,
       gopOf c = pyInt ((c.framerate : ℚ) * c.gop_interval_seconds) ∧
       build c = buildVideoPart c ++
         ("amlvenc gop=" ++ toString (gopOf c)) ++
         (gopRest c ++ buildTail c)) ∧
    gopOf cfg60 = 60 := by
  refine ⟨fun c => ⟨rfl, build_gop_wiring c⟩, ?_⟩
  simp only [gopOf, cfg60, pyInt]
  rw [if_pos (by norm_num)]
  norm_num [Int.floor_eq_iff]

/-- C7 counterexample: exporting a stored record that carries the runtime
fields `status`, `pid` and `retry_count` returns them verbatim — the claimed
stripping of runtime-only fields does not happen. -/
theorem C7_export_keeps_runtime_fields_counterexample :
    (export_instance "instances" c7fs "abc").isSome = true ∧
    hasKey ((export_instance "instances" c7fs "abc").getD []) "status"
      = true ∧
    hasKey ((export_instance "instances" c7fs "abc").getD []) "pid" = true ∧
    hasKey ((export_instance "instances" c7fs "abc").getD []) "retry_count"
      = true := by decide

/-- C7 (amended): `export_instance` returns the stored current record with
only the internal `_history_file` key removed; membership of every other
key — the runtime fields included — is preserved. -/
theorem C7_export_strips_only_history_key (root : String) (fs : FS)
    (id : String) (r : Record)
    (h : fsGet fs (currentPath root id) = some (.json r)) :
    export_instance root fs id = some (eraseKey r "_history_file") ∧
    ∀ k, k ≠ "_history_file" →
      hasKey (eraseKey r "_history_file") k = hasKey r k := by
  constructor
  · simp [export_instance, h]
  · intro k hk
    exact hasKey_eraseKey_ne r _ k hk

/-- C7 witness: the amended theorem applied to the concrete store `c7fs`. -/
theorem C7_export_strips_only_history_key_witness :
    fsGet c7fs (currentPath "instances" "abc") = some (.json c7rec) ∧
    export_instance "instances" c7fs "abc"
      = some (eraseKey c7rec "_history_file") :=
  ⟨by decide,
   (C7_export_strips_only_history_key "instances" c7fs "abc" c7rec
      (by decide)).1⟩

/-- C8 counterexample: `SetAutoInstanceConfig` with `rc_mode = 5` and
`srt_port = 70000` does not fail with `InvalidConfig` — it returns the
plain value `False` — and it is not a no-op either: the out-of-range values
are stored as the controller config and the previously managed auto
instance has already been deleted. -/
theorem C8_no_range_validation_counterexample :
    (SetAutoInstanceConfig c8Data none .graceful c8State).1 = .ok false ∧
    ((SetAutoInstanceConfig c8Data none .graceful c8State).2.config).map
      (·.rc_mode) = some 5 ∧
    ((SetAutoInstanceConfig c8Data none .graceful c8State).2.config).map
      (·.srt_port) = some 70000 ∧
    lookupInst (SetAutoInstanceConfig c8Data none .graceful c8State).2.mgr
      "old1" = none :=
  ⟨rfl, rfl, rfl, by decide⟩

/-- C8 (amended): the method performs no range validation of `rc_mode` or
`srt_port`: for any payload whose `audio_source` parses, the values are
accepted into the controller config unchecked, and the call returns `False`
without raising any typed error (every call currently fails inside
`create_or_update`, at the `InstanceType` import). -/
theorem C8_config_accepted_without_validation (d : ConfigData)
    (tx : Option TxStatus) (oc : StopOutcome) (s : AIMState) (a : AudioSource)
    (h : parseAudioSource d.audio_source = some a) :
    (SetAutoInstanceConfig d tx oc s).1 = .ok false ∧
    ((SetAutoInstanceConfig d tx oc s).2.config).map (·.rc_mode)
      = some d.rc_mode ∧
    ((SetAutoInstanceConfig d tx oc s).2.config).map (·.srt_port)
      = some d.srt_port := by
  simp only [SetAutoInstanceConfig, h]
  refine ⟨rfl, ?_, ?_⟩ <;> cases tx <;> rfl

/-- A second out-of-range payload, used by the C8 witness: `rc_mode = 9`,
`srt_port = 0`, `audio_source = "line_in"`. -/
def c8wData : ConfigData := { rc_mode := 9, srt_port := 0, audio_source := "line_in" }

/-- C8 witness: the amended theorem applied to the concrete out-of-range
payload `c8wData` on an empty controller state. -/
theorem C8_config_accepted_without_validation_witness :
    parseAudioSource c8wData.audio_source = some .line_in ∧
    (SetAutoInstanceConfig c8wData none .graceful {}).1 = .ok false ∧
    ((SetAutoInstanceConfig c8wData none .graceful {}).2.config).map
      (·.rc_mode) = some 9 :=
  ⟨by decide,
   (C8_config_accepted_without_validation c8wData none .graceful {} .line_in
      (by decide)).1,
   (C8_config_accepted_without_validation c8wData none .graceful {} .line_in
      (by decide)).2.1⟩

/-- C9 counterexample: calling `start_instance` on the running instance
`c9Inst` is reported as success — the call returns `True` (not a failure),
spawns nothing and changes nothing, so the claimed rejection as a failure
is false. -/
theorem C9_start_running_reports_success_counterexample :
    start_instance (.ok 999) 77 "w" c9St = (.ok true, c9St, [], []) := by
  rfl

/-- C9 (amended): for every instance whose status is `running`, `start`
returns success `True` without raising, without spawning a child, without
issuing any notification, and with the supervisor state unchanged. -/
theorem C9_start_on_running_is_noop_success (st : ManagerState) (id : String)
    (inst : Instance) (sp : SpawnOutcome) (now : Nat)
    (h : lookupInst st id = some inst) (hs : inst.status = .running) :
    start_instance sp now id st = (.ok true, st, [], []) := by
  simp only [start_instance, h]
  rw [if_pos hs]

/-- C9 witness: the amended theorem applied to the concrete state `c9St`. -/
theorem C9_start_on_running_is_noop_success_witness :
    lookupInst c9St "w" = some c9Inst ∧ c9Inst.status = .running ∧
    start_instance (.ok 1000) 78 "w" c9St = (.ok true, c9St, [], []) :=
  ⟨rfl, rfl, C9_start_on_running_is_noop_success c9St "w" c9Inst (.ok 1000) 78
    rfl rfl⟩

/-- C10: for every instance whose status is not `running` (stopped,
starting, stopping, error, or waiting_signal), `stop_instance` returns
success `True` without raising, sends no signal to any process, issues no
notification, and leaves the supervisor state — hence every field of the
instance — unchanged. -/
theorem C10_stop_on_not_running_is_noop (st : ManagerState) (id : String)
    (inst : Instance) (oc : StopOutcome) (h : lookupInst st id = some inst)
    (hs : inst.status ≠ .running) :
    stop_instance oc id st = (.ok true, st, [], []) := by
  simp only [stop_instance, h]
  rw [if_pos hs]

/-- C10 witness: the theorem applied to the concrete state `c10St`, whose
instance is in status `error` with populated runtime fields. -/
theorem C10_stop_on_not_running_is_noop_witness :
    lookupInst c10St "v" = some c10Inst ∧ c10Inst.status ≠ .running ∧
    stop_instance .graceful "v" c10St = (.ok true, c10St, [], []) :=
  ⟨rfl, by decide, C10_stop_on_not_running_is_noop c10St "v" c10Inst .graceful
    rfl (by decide)⟩

end GstMgr
